import Mathlib

/-!
Verification of `rocon_service_turtlesim/scripts/turtle_herder_v2.py`.

The Python script mediates spawn/kill requests for turtlesim turtles across a
multimaster boundary.  We embed its handlers shallowly: the mutable registry
`self.turtles` becomes an explicit `List String`, backend ROS service calls
become an outcome parameter (`success`, communication failure, interrupt), and
Python exceptions become explicit error values threaded through the results.

File layout: all definitions (the embedding) first, then the supporting
lemmas, then one theorem per verified claim.
-/

namespace TurtleHerderProof

/-!
## Decimal strings

Python's `str(count)` on a non-negative integer is Lean's `Nat.repr`.
`decVal` evaluates a decimal digit-character list back to the number; it is
used to prove that `Nat.repr` is injective, which the unique-name allocation
loop's termination and freshness rest on.
-/

/-- Accumulator-style decimal evaluation of a digit-character list
(most significant digit first). -/
def decVal (l : List Char) : Nat :=
  l.foldl (fun a c => a * 10 + (c.toNat - 48)) 0

/-!
## Unique-name allocation

`_spawn_turtle_service` and `spawn_turtles` both run the loop

```
name_extension = ''
count = 0
while name + name_extension in self.turtles:
    name_extension = '_' + str(count)
    count = count + 1
name = name + name_extension
```

We embed it as a fueled recursion; `turtles.length + 2` iterations always
suffice (pigeonhole over the distinct candidate suffixes), so the fueled
function agrees with the Python loop everywhere.
-/

/-- The candidate tested at suffix counter `k`: `name + '_' + str(k)`. -/
def candidate (name : String) (k : Nat) : String :=
  name ++ ("_" ++ Nat.repr k)

/-- The Python `while` loop from `_spawn_turtle_service` / `spawn_turtles`,
with explicit fuel.  State: `ext` is the extension to be tested next and
`count` the next suffix counter value. -/
def uniqueNameLoop (turtles : List String) (name : String) :
    String → Nat → Nat → String
  | ext, _, 0 => name ++ ext
  | ext, count, fuel + 1 =>
    if name ++ ext ∈ turtles then
      uniqueNameLoop turtles name ("_" ++ Nat.repr count) (count + 1) fuel
    else
      name ++ ext

/-- Unique-name allocation as performed at the top of `_spawn_turtle_service`
(and per batch name in `spawn_turtles`): run the collision loop starting from
the empty extension and counter 0. -/
def allocateName (turtles : List String) (name : String) : String :=
  uniqueNameLoop turtles name "" 0 (turtles.length + 2)

/-!
## Data model for the handlers

Python exceptions that the script can raise or observe are made explicit.
Backend ROS service calls (`self._kill_turtle_service_client`,
`self._spawn_turtle_service_client`) are modelled by an outcome parameter:
the call either succeeds, raises `rospy.ServiceException` (communication
failure) or raises `rospy.ROSInterruptException` (shutdown).
-/

/-- Python exceptions raised by the script itself. -/
inductive PyError where
  | nameError       -- unbound local name (`msg` in `_kill_turtle_service`)
  | attributeError  -- missing attribute (`self._prepare_rocon_launch_text`, `self._kill_turtle_service_pair_server`)
  | valueError      -- `list.remove(x)` with `x` absent
  | osError         -- `os.unlink` on a missing file
  deriving DecidableEq, Repr

/-- Outcome of one backend ROS service call, from the handler's viewpoint. -/
inductive BackendOutcome where
  | success    -- call returned
  | commFail   -- raised rospy.ServiceException
  | interrupt  -- raised rospy.ROSInterruptException
  deriving DecidableEq, Repr

/-- `gateway_msgs.ConnectionType` values used by the script. -/
inductive ConnectionType where
  | subscriber
  | publisher
  deriving DecidableEq, Repr

/-- `gateway_msgs.Rule`. -/
structure Rule where
  node : String
  type : ConnectionType
  name : String
  deriving DecidableEq, Repr

/-- `gateway_msgs.RemoteRule`. -/
structure RemoteRule where
  gateway : String
  rule : Rule
  deriving DecidableEq, Repr

/-- `gateway_srvs.RemoteRequest`. -/
structure RemoteRequest where
  cancel : Bool
  remotes : List RemoteRule
  deriving DecidableEq, Repr

/-- `TurtleHerder._send_flip_rules_request(name, cancel)`: builds the pair of
flip rules (subscriber rule on `.../cmd_vel`, publisher rule on `.../pose`),
wraps both in one `RemoteRequest` keyed by `name`, and submits it to the
gateway flip service.  The submission itself is fire-and-forget (its
exceptions are caught and only logged), so we model the function by the
request value it submits. -/
def send_flip_rules_request (name : String) (cancel : Bool) : RemoteRequest :=
  let rule1 : Rule :=
    { node := ""
      type := ConnectionType.subscriber
      name := "/services/turtlesim/" ++ name ++ "/cmd_vel" }
  let rule2 : Rule :=
    { node := ""
      type := ConnectionType.publisher
      name := "/services/turtlesim/" ++ name ++ "/pose" }
  { cancel := cancel
    remotes := [ { gateway := name, rule := rule1 },
                 { gateway := name, rule := rule2 } ] }

/-!
## `_kill_turtle_service` (the Destroy handler, source lines 111-126)

The handler's first statement builds the internal request from `msg.name`,
but no local or global `msg` exists (the parameter is called `req`), so every
invocation raises `NameError` before anything else runs.  We nevertheless
embed the whole body: the code from the `try:` statement on is carried as
`killServiceBody`, reached only if that first statement produced a value.
Inside the body: the backend call and `self.turtles.remove(req.name)` sit in
a `try` whose `except rospy.ServiceException` arm logs and falls through and
whose `except rospy.ROSInterruptException` arm returns; afterwards the
handler replies via `self._kill_turtle_service_pair_server.reply(...)` and
submits the cancel flip rules.
-/

/-- Result of one Destroy-handler invocation. -/
structure KillResult where
  turtles : List String            -- registry after the invocation
  backendCalled : Bool             -- internal kill service was invoked
  replySent : Bool                 -- KillTurtleResponse reply was delivered
  flips : List RemoteRequest       -- flip requests submitted to the gateway
  error : Option PyError           -- uncaught exception escaping the handler
  deriving DecidableEq, Repr

/-- The body of `_kill_turtle_service` from the `try:` statement on.
`self.turtles.remove` raises `ValueError` when the name is absent (uncaught);
the reply statement reads `self._kill_turtle_service_pair_server`, an
attribute that is never assigned anywhere (nor listed in `__slots__`), so
reaching it raises `AttributeError` (uncaught), before the flip-rule cancel
submission that follows it. -/
def killServiceBody (turtles : List String) (backend : BackendOutcome)
    (reqName : String) : KillResult :=
  match backend with
  | BackendOutcome.interrupt =>
    -- except rospy.ROSInterruptException: return
    { turtles := turtles, backendCalled := true, replySent := false
      flips := [], error := none }
  | BackendOutcome.commFail =>
    -- except rospy.ServiceException: rospy.logerr(...); fall through to the
    -- reply statement, which raises AttributeError
    { turtles := turtles, backendCalled := true, replySent := false
      flips := [], error := some PyError.attributeError }
  | BackendOutcome.success =>
    if reqName ∈ turtles then
      -- self.turtles.remove(req.name) removes the first occurrence,
      -- then the reply statement raises AttributeError
      { turtles := turtles.erase reqName, backendCalled := true, replySent := false
        flips := [], error := some PyError.attributeError }
    else
      -- list.remove raises ValueError, uncaught
      { turtles := turtles, backendCalled := true, replySent := false
        flips := [], error := some PyError.valueError }

/-- `TurtleHerder._kill_turtle_service`.  The first statement evaluates
`msg.name` with `msg` unbound, raising `NameError`; the rest of the body
(`killServiceBody`) is never reached. -/
def kill_turtle_service (turtles : List String) (backend : BackendOutcome)
    (reqName : String) : KillResult :=
  match (Except.error PyError.nameError : Except PyError String) with
  | Except.error e =>
    { turtles := turtles, backendCalled := false, replySent := false
      flips := [], error := some e }
  | Except.ok killName =>
    let _ := killName
    killServiceBody turtles backend reqName

/-!
## `_spawn_turtle_service` (the Spawn handler, source lines 128-160)

The handler sets `response.name = ''`, allocates a unique name with the
collision loop, calls the backend spawn service with random pose parameters
(transient inputs; they do not affect registry, reply or flip behaviour, so
they are not modelled) and on success appends the name to `self.turtles`,
submits the announce flip request and replies with the assigned name; on a
caught backend exception it returns the response still carrying the
empty-string sentinel.
-/

/-- Result of one Spawn-handler invocation. -/
structure SpawnResult where
  turtles : List String               -- registry after the invocation
  backendSpawnedName : Option String  -- name passed to the backend spawn call
  responseName : String               -- reply; the sentinel is the empty string
  flips : List RemoteRequest          -- flip requests submitted to the gateway
  deriving DecidableEq, Repr

/-- `TurtleHerder._spawn_turtle_service`. -/
def spawn_turtle_service (turtles : List String) (backend : BackendOutcome)
    (reqName : String) : SpawnResult :=
  -- response.name = ''; unique-name loop; internal spawn request built from
  -- the allocated name and a random pose
  let name := allocateName turtles reqName
  match backend with
  | BackendOutcome.success =>
    -- self.turtles.append(name); flip announce; response.name = name
    { turtles := turtles ++ [name]
      backendSpawnedName := some name
      responseName := name
      flips := [send_flip_rules_request name false] }
  | BackendOutcome.commFail =>
    -- except rospy.ServiceException: rospy.logerr(...); return response  ('')
    { turtles := turtles
      backendSpawnedName := some name
      responseName := ""
      flips := [] }
  | BackendOutcome.interrupt =>
    -- except rospy.ROSInterruptException: rospy.loginfo(...); return response  ('')
    { turtles := turtles
      backendSpawnedName := some name
      responseName := ""
      flips := [] }

/-!
## `prepare_rocon_launch_text` (source lines 45-56)

Module-level function (its stray `self` parameter notwithstanding, it is
defined at module scope and never attached to the `TurtleHerder` class).  It
starts a counter `port = 11` and, per turtle name, appends a `<launch>` block
whose title and port attribute are the literal `114` followed by
`str(port)`, incrementing `port` per entry; the whole document is wrapped in
a `<concert>` element.  We embed the loop both as the list of per-turtle
entries it lays down — `(name, port-attribute string)` pairs — and as the
rendered text, proving the two agree.
-/

/-- The `(name, port string)` pairs generated by the loop, starting from a
given counter value (the source starts at 11). -/
def launchEntries : List String → Nat → List (String × String)
  | [], _ => []
  | name :: rest, port => (name, "114" ++ Nat.repr port) :: launchEntries rest (port + 1)

/-- One `<launch ...>` block of the generated text, for entry `(name, p)`
where `p` is the port attribute string. -/
def renderLaunchEntry (e : String × String) : String :=
  "  <launch title=\"" ++ e.1 ++ ":" ++ e.2
    ++ "\" package=\"rocon_service_turtlesim\" name=\"turtle.launch\" port=\""
    ++ e.2 ++ "\">\n"
  ++ "    <arg name=\"turtle_name\" value=\"" ++ e.1 ++ "\"/>\n"
  ++ "    <arg name=\"turtle_concert_whitelist\" value=\"Turtle Concert;Turtle Teleop Concert;Concert Tutorial\"/>\n"
  ++ "    <arg name=\"turtle_rapp_whitelist\" value=\"[rocon_apps, turtle_concert]\"/>\n"
  ++ "  </launch>\n"

/-- The accumulation loop of `prepare_rocon_launch_text`. -/
def prepareLoop : List String → Nat → String
  | [], _ => ""
  | name :: rest, port => renderLaunchEntry (name, "114" ++ Nat.repr port) ++ prepareLoop rest (port + 1)

/-- `prepare_rocon_launch_text(turtles)`: the full generated document. -/
def prepare_rocon_launch_text (turtles : List String) : String :=
  "<concert>\n" ++ prepareLoop turtles 11 ++ "</concert>\n"

/-!
## `spawn_turtles` (Herder batch spawn, source lines 162-183)

The method first runs the collision loop per batch name against the
unchanged `self.turtles`, collecting `turtle_names`; then creates
`tempfile.NamedTemporaryFile(mode='w+t', delete=False)` and evaluates
`self._prepare_rocon_launch_text(turtles)`.  That attribute does not exist:
the builder is the module-level `prepare_rocon_launch_text` and is never
attached to the class (whose `__slots__` would forbid the attribute anyway),
so the lookup raises `AttributeError`.  By then the temporary file has
already been created with `delete=False`; the write, the `rocon_launch`
subprocess start, `self.turtles.extend(turtle_names)` and the `ProcessInfo`
record never happen and the temporary file is never removed.
-/

/-- Result of one `spawn_turtles` invocation. -/
structure BatchResult where
  turtles : List String        -- registry after the invocation
  tempCreated : Bool           -- NamedTemporaryFile(delete=False) was created
  tempDeleted : Bool           -- that file was removed again
  processLaunched : Bool       -- the rocon_launch subprocess was started
  error : Option PyError       -- uncaught exception escaping the call
  deriving DecidableEq, Repr

/-- `TurtleHerder.spawn_turtles`. -/
def spawn_turtles (turtles : List String) (batch : List String) : BatchResult :=
  -- per-name collision loop, run against the unchanged self.turtles
  let turtle_names := batch.map (fun turtle_name => allocateName turtles turtle_name)
  let _ := turtle_names
  -- temp = tempfile.NamedTemporaryFile(mode='w+t', delete=False)
  -- rocon_launch_text = self._prepare_rocon_launch_text(turtles)  raises AttributeError
  match (Except.error PyError.attributeError : Except PyError String) with
  | Except.error e =>
    { turtles := turtles, tempCreated := true, tempDeleted := false
      processLaunched := false, error := some e }
  | Except.ok text =>
    let _ := text
    -- (unreached) write text, close, Popen rocon_launch,
    -- self.turtles.extend(turtle_names), self._process_info.append(...)
    { turtles := turtles ++ turtle_names, tempCreated := true, tempDeleted := false
      processLaunched := true, error := none }

/-!
## `shutdown` (source lines 213-220) and `signal_handler` (lines 222-231)

`shutdown` iterates over `self.turtles` calling the backend kill client on
each name inside a `try` whose two `except` arms (`rospy.ServiceException`,
`rospy.ROSInterruptException`) both execute `break`, ending the loop.

`signal_handler` iterates over `self._process_info`; per record it calls
`process.terminate()`, then `process.send_signal(signal.SIGHUP)` inside a
`try` that catches `OSError`, then `os.unlink(process_info.temp_file.name)`
outside any `try`.  The `_process_info` list is never cleared.
-/

/-- `TurtleHerder.shutdown`, modelled by the list of names for which the
backend kill call is attempted.  `beh` gives each attempted call's outcome;
both `except` arms execute `break`, ending the loop. -/
def shutdownKillAttempts (beh : String → BackendOutcome) :
    List String → List String
  | [] => []
  | name :: rest =>
    match beh name with
    | BackendOutcome.success => name :: shutdownKillAttempts beh rest
    | BackendOutcome.commFail => [name]   -- except ServiceException: break
    | BackendOutcome.interrupt => [name]  -- except ROSInterruptException: break

/-- Observable effects of `signal_handler`, per `ProcessInfo` record
(records identified by their artifact id). -/
inductive SigEff where
  | term (i : Nat)     -- process.terminate()
  | hup (i : Nat)      -- process.send_signal(SIGHUP)
  | unlink (i : Nat)   -- os.unlink(temp_file.name) attempted
  deriving DecidableEq, Repr

/-- The loop of `TurtleHerder.signal_handler`.  `unlinked` is the set of
artifact files already removed from disk; `os.unlink` on such a file raises
`OSError`, which the surrounding code does not catch (the `except OSError`
only wraps `send_signal`), aborting the handler. -/
def signalHandlerLoop (unlinked : List Nat) :
    List Nat → List SigEff × List Nat × Option PyError
  | [] => ([], unlinked, none)
  | i :: rest =>
    if i ∈ unlinked then
      -- unlink raises OSError; uncaught, the loop stops here
      ([SigEff.term i, SigEff.hup i, SigEff.unlink i], unlinked, some PyError.osError)
    else
      let r := signalHandlerLoop (i :: unlinked) rest
      (SigEff.term i :: SigEff.hup i :: SigEff.unlink i :: r.1, r.2.1, r.2.2)

/-- `TurtleHerder.signal_handler` over the (never cleared) `_process_info`
list: emits terminate and SIGHUP for each record, then unlinks its
artifact.  Returns the effect trace, the artifacts removed from disk after
the run, and the escaping exception if any. -/
def signal_handler (records : List Nat) (unlinked : List Nat) :
    List SigEff × List Nat × Option PyError :=
  signalHandlerLoop unlinked records

/-!
## Whole-registry evolution

The registry `self.turtles` starts empty (`self.turtles = []` in
`__init__`; the default `turtle1` kill in `__init__` goes to the backend
only and never touches the list).  The operations that can run against it
afterwards are the two mediator handlers and Herder batch spawn.
-/

/-- One registry-mutating operation, with its backend disposition. -/
inductive Op where
  | mediatorSpawn (reqName : String) (backend : BackendOutcome)
  | mediatorKill (reqName : String) (backend : BackendOutcome)
  | batchSpawn (names : List String)
  deriving Repr

/-- Effect of one operation on the registry. -/
def applyOp (turtles : List String) : Op → List String
  | Op.mediatorSpawn reqName backend => (spawn_turtle_service turtles backend reqName).turtles
  | Op.mediatorKill reqName backend => (kill_turtle_service turtles backend reqName).turtles
  | Op.batchSpawn names => (spawn_turtles turtles names).turtles

/-- Registry contents after a sequence of operations from the initial
(empty) registry. -/
def runOps (ops : List Op) : List String :=
  ops.foldl applyOp []

/-!
## Verification lemmas
-/

lemma digitChar_toNat_sub (d : Nat) (h : d < 10) :
    (Nat.digitChar d).toNat - 48 = d := by
  interval_cases d <;> rfl

lemma toDigitsCore_append (fuel : Nat) :
    ∀ (n : Nat) (ds ds' : List Char),
      Nat.toDigitsCore 10 fuel n (ds ++ ds') = Nat.toDigitsCore 10 fuel n ds ++ ds' := by
  induction fuel with
  | zero => intro n ds ds'; rfl
  | succ fuel ih =>
    intro n ds ds'
    simp only [Nat.toDigitsCore]
    by_cases h : n / 10 = 0
    · simp [h]
    · simp only [h, if_false]
      have := ih (n / 10) (Nat.digitChar (n % 10) :: ds) ds'
      simpa using this

lemma toDigitsCore_fuel (n : Nat) :
    ∀ (fuel : Nat) (ds : List Char), n < fuel →
      Nat.toDigitsCore 10 fuel n ds = Nat.toDigitsCore 10 (n + 1) n ds := by
  induction n using Nat.strong_induction_on with
  | _ n ih =>
    intro fuel ds hlt
    match fuel, hlt with
    | fuel + 1, _ =>
      simp only [Nat.toDigitsCore]
      by_cases h : n / 10 = 0
      · simp [h]
      · simp only [h, if_false]
        have hn : 0 < n := by
          rcases Nat.eq_zero_or_pos n with h0 | h0
          · exact absurd (by simp [h0]) h
          · exact h0
        have hdiv : n / 10 < n := Nat.div_lt_self hn (by norm_num)
        have h1 : Nat.toDigitsCore 10 fuel (n / 10) (Nat.digitChar (n % 10) :: ds)
            = Nat.toDigitsCore 10 (n / 10 + 1) (n / 10) (Nat.digitChar (n % 10) :: ds) :=
          ih (n / 10) hdiv fuel _ (by omega)
        have h2 : Nat.toDigitsCore 10 n (n / 10) (Nat.digitChar (n % 10) :: ds)
            = Nat.toDigitsCore 10 (n / 10 + 1) (n / 10) (Nat.digitChar (n % 10) :: ds) :=
          ih (n / 10) hdiv n _ hdiv
      -- both sides reduce to the canonically fueled call
        rw [h1, h2]

lemma toDigits_lt (n : Nat) (h : n < 10) :
    Nat.toDigits 10 n = [Nat.digitChar n] := by
  have h0 : n / 10 = 0 := Nat.div_eq_of_lt h
  simp [Nat.toDigits, Nat.toDigitsCore, h0, Nat.mod_eq_of_lt h]

lemma toDigits_ge (n : Nat) (h : 10 ≤ n) :
    Nat.toDigits 10 n = Nat.toDigits 10 (n / 10) ++ [Nat.digitChar (n % 10)] := by
  have hdiv0 : n / 10 ≠ 0 := by
    intro h0
    have := (Nat.div_eq_zero_iff (by norm_num : 0 < 10)).mp h0
    omega
  have hdiv : n / 10 < n := Nat.div_lt_self (by omega) (by norm_num)
  show Nat.toDigitsCore 10 (n + 1) n [] = _
  simp only [Nat.toDigitsCore, hdiv0, if_false]
  have step1 : Nat.toDigitsCore 10 n (n / 10) [Nat.digitChar (n % 10)]
      = Nat.toDigitsCore 10 (n / 10 + 1) (n / 10) [Nat.digitChar (n % 10)] :=
    toDigitsCore_fuel (n / 10) n _ hdiv
  have step2 : Nat.toDigitsCore 10 (n / 10 + 1) (n / 10) ([] ++ [Nat.digitChar (n % 10)])
      = Nat.toDigitsCore 10 (n / 10 + 1) (n / 10) [] ++ [Nat.digitChar (n % 10)] :=
    toDigitsCore_append (n / 10 + 1) (n / 10) [] [Nat.digitChar (n % 10)]
  simp only [List.nil_append] at step2
  rw [step1, step2]
  rfl

lemma decVal_toDigits (n : Nat) : decVal (Nat.toDigits 10 n) = n := by
  induction n using Nat.strong_induction_on with
  | _ n ih =>
    by_cases h : n < 10
    · rw [toDigits_lt n h]
      simp [decVal, digitChar_toNat_sub n h]
    · have h10 : 10 ≤ n := by omega
      rw [toDigits_ge n h10]
      have hdiv : n / 10 < n := Nat.div_lt_self (by omega) (by norm_num)
      have hrec := ih (n / 10) hdiv
      simp only [decVal, List.foldl_append, List.foldl_cons, List.foldl_nil] at hrec ⊢
      rw [hrec, digitChar_toNat_sub (n % 10) (Nat.mod_lt n (by norm_num))]
      omega

lemma Nat_repr_injective : Function.Injective Nat.repr := by
  intro n m h
  have hdata : Nat.toDigits 10 n = Nat.toDigits 10 m := congrArg String.data h
  have := congrArg decVal hdata
  rwa [decVal_toDigits, decVal_toDigits] at this

lemma String_append_left_cancel {a b c : String} (h : a ++ b = a ++ c) : b = c := by
  have hdata : a.data ++ b.data = a.data ++ c.data := congrArg String.data h
  have : b.data = c.data := List.append_cancel_left hdata
  cases b; cases c; exact congrArg String.mk this

lemma String_append_empty (a : String) : a ++ "" = a := by
  apply congrArg String.mk
  simp [String.data_append]

lemma String_empty_append (a : String) : "" ++ a = a := by
  cases a
  apply congrArg String.mk
  simp [String.data_append]

lemma String_append_assoc (a b c : String) : a ++ b ++ c = a ++ (b ++ c) := by
  apply congrArg String.mk
  simp [String.data_append]

lemma String_foldl_append_init (l : List String) :
    ∀ a : String, l.foldl (fun r s => r ++ s) a
      = a ++ l.foldl (fun r s => r ++ s) "" := by
  induction l with
  | nil => intro a; exact (String_append_empty a).symm
  | cons s rest ih =>
    intro a
    simp only [List.foldl_cons]
    rw [ih (a ++ s), ih ("" ++ s), String_empty_append, String_append_assoc]

lemma candidate_injective (name : String) : Function.Injective (candidate name) := by
  intro j k h
  have h1 : ("_" ++ Nat.repr j : String) = "_" ++ Nat.repr k :=
    String_append_left_cancel h
  have h2 : Nat.repr j = Nat.repr k := String_append_left_cancel h1
  exact Nat_repr_injective h2

lemma candidate_ne_base (name : String) (k : Nat) : candidate name k ≠ name := by
  intro h
  have h0 := congrArg String.data h
  rw [candidate, String.data_append, String.data_append] at h0
  have hus : ("_" : String).data = ['_'] := rfl
  rw [hus] at h0
  have hlen := congrArg List.length h0
  simp [List.length_append] at hlen

/-- Among the first `turtles.length + 1` candidate suffixes, at least one
candidate string is not in the registry list. -/
lemma exists_free_candidate (turtles : List String) (name : String) :
    ∃ k, k ≤ turtles.length ∧ candidate name k ∉ turtles := by
  by_contra hcon
  push_neg at hcon
  have hmaps : ∀ k ∈ Finset.range (turtles.length + 1), candidate name k ∈ turtles.toFinset := by
    intro k hk
    rw [List.mem_toFinset]
    exact hcon k (Nat.le_of_lt_succ (Finset.mem_range.mp hk))
  have hinj : Set.InjOn (candidate name) (Finset.range (turtles.length + 1)) :=
    fun a _ b _ h => candidate_injective name h
  have hcard := Finset.card_le_card_of_injOn (candidate name) hmaps hinj
  have h1 : (Finset.range (turtles.length + 1)).card = turtles.length + 1 :=
    Finset.card_range _
  have h2 : turtles.toFinset.card ≤ turtles.length := turtles.toFinset_card_le
  omega

lemma uniqueNameLoop_spec (turtles : List String) (name : String) :
    ∀ (fuel c : Nat),
      (∃ j, j < fuel ∧ candidate name (c + j) ∉ turtles) →
      uniqueNameLoop turtles name ("_" ++ Nat.repr c) (c + 1) fuel ∉ turtles ∧
      ∃ k, c ≤ k ∧
        uniqueNameLoop turtles name ("_" ++ Nat.repr c) (c + 1) fuel = candidate name k ∧
        ∀ j, c ≤ j → j < k → candidate name j ∈ turtles := by
  intro fuel
  induction fuel with
  | zero =>
    intro c hex
    rcases hex with ⟨j, hj, _⟩
    omega
  | succ fuel ih =>
    intro c hex
    by_cases hmem : name ++ ("_" ++ Nat.repr c) ∈ turtles
    · have hrec : uniqueNameLoop turtles name ("_" ++ Nat.repr c) (c + 1) (fuel + 1)
          = uniqueNameLoop turtles name ("_" ++ Nat.repr (c + 1)) (c + 2) fuel := by
        simp [uniqueNameLoop, hmem]
      rcases hex with ⟨j, hj, hfree⟩
      have hj0 : j ≠ 0 := by
        intro h0
        rw [h0, Nat.add_zero] at hfree
        exact hfree hmem
      have hex' : ∃ j', j' < fuel ∧ candidate name (c + 1 + j') ∉ turtles := by
        refine ⟨j - 1, by omega, ?_⟩
        have : c + 1 + (j - 1) = c + j := by omega
        rwa [this]
      have hmain := ih (c + 1) hex'
      rw [hrec]
      refine ⟨hmain.1, ?_⟩
      rcases hmain.2 with ⟨k, hck, heq, hall⟩
      refine ⟨k, by omega, heq, ?_⟩
      intro j' hcj' hj'k
      rcases Nat.eq_or_lt_of_le hcj' with h | h
      · rw [← h]; exact hmem
      · exact hall j' (by omega) hj'k
    · have hstop : uniqueNameLoop turtles name ("_" ++ Nat.repr c) (c + 1) (fuel + 1)
          = candidate name c := by
        simp [uniqueNameLoop, hmem, candidate]
      rw [hstop]
      exact ⟨hmem, c, le_refl c, rfl, fun j hcj hjc => absurd (lt_of_le_of_lt hcj hjc) (lt_irrefl c)⟩

lemma allocateName_of_not_mem (turtles : List String) (name : String)
    (h : name ∉ turtles) : allocateName turtles name = name := by
  have : (name ++ "" : String) = name := by
    apply congrArg String.mk
    simp [String.data_append]
  simp [allocateName, uniqueNameLoop, this, h]

lemma allocateName_eq_loop_of_mem (turtles : List String) (name : String)
    (h : name ∈ turtles) :
    allocateName turtles name
      = uniqueNameLoop turtles name ("_" ++ Nat.repr 0) 1 (turtles.length + 1) := by
  have hne : (name ++ "" : String) = name := by
    apply congrArg String.mk
    simp [String.data_append]
  simp [allocateName, uniqueNameLoop, hne, h]

lemma allocateName_spec_of_mem (turtles : List String) (name : String)
    (h : name ∈ turtles) :
    allocateName turtles name ∉ turtles ∧
    ∃ k, allocateName turtles name = candidate name k ∧
      (∀ j, j < k → candidate name j ∈ turtles) ∧ candidate name k ∉ turtles := by
  rw [allocateName_eq_loop_of_mem turtles name h]
  have hex : ∃ j, j < turtles.length + 1 ∧ candidate name (0 + j) ∉ turtles := by
    rcases exists_free_candidate turtles name with ⟨k, hk, hfree⟩
    exact ⟨k, by omega, by simpa using hfree⟩
  have hmain := uniqueNameLoop_spec turtles name (turtles.length + 1) 0 hex
  refine ⟨hmain.1, ?_⟩
  rcases hmain.2 with ⟨k, _, heq, hall⟩
  have hfree : candidate name k ∉ turtles := heq ▸ hmain.1
  exact ⟨k, heq, fun j hj => hall j (Nat.zero_le j) hj, hfree⟩

/-- The allocated name is never already registered. -/
lemma allocateName_fresh (turtles : List String) (name : String) :
    allocateName turtles name ∉ turtles := by
  by_cases h : name ∈ turtles
  · exact (allocateName_spec_of_mem turtles name h).1
  · rw [allocateName_of_not_mem turtles name h]; exact h

lemma prepareLoop_eq_render (turtles : List String) :
    ∀ port, prepareLoop turtles port
      = String.join ((launchEntries turtles port).map renderLaunchEntry) := by
  induction turtles with
  | nil => intro port; rfl
  | cons name rest ih =>
    intro port
    simp only [prepareLoop, launchEntries, String.join, List.map_cons, List.foldl_cons,
      ih (port + 1)]
    rw [String_foldl_append_init _ ("" ++ renderLaunchEntry (name, "114" ++ Nat.repr port)),
      String_empty_append]

/-- Every Destroy invocation dies on the unbound `msg` before doing
anything else. -/
lemma kill_turtle_service_eq (turtles : List String) (backend : BackendOutcome)
    (reqName : String) :
    kill_turtle_service turtles backend reqName
      = { turtles := turtles, backendCalled := false, replySent := false
          flips := [], error := some PyError.nameError } := rfl

/-- Every batch spawn dies on the missing `_prepare_rocon_launch_text`
attribute, after creating the temporary file. -/
lemma spawn_turtles_eq (turtles : List String) (batch : List String) :
    spawn_turtles turtles batch
      = { turtles := turtles, tempCreated := true, tempDeleted := false
          processLaunched := false, error := some PyError.attributeError } := rfl

lemma applyOp_preserves_nodup (turtles : List String) (op : Op)
    (h : turtles.Nodup) : (applyOp turtles op).Nodup := by
  cases op with
  | mediatorSpawn reqName backend =>
    cases backend with
    | success =>
      have hfresh := allocateName_fresh turtles reqName
      simp only [applyOp, spawn_turtle_service]
      rw [List.nodup_append]
      exact ⟨h, List.nodup_singleton _, by
        intro a ha hb
        simp only [List.mem_singleton] at hb
        exact hfresh (hb ▸ ha)⟩
    | commFail => exact h
    | interrupt => exact h
  | mediatorKill reqName backend =>
    simpa only [applyOp, kill_turtle_service_eq] using h
  | batchSpawn names =>
    simpa only [applyOp, spawn_turtles_eq] using h

lemma foldl_applyOp_nodup (ops : List Op) :
    ∀ turtles : List String, turtles.Nodup → (ops.foldl applyOp turtles).Nodup := by
  induction ops with
  | nil => intro turtles h; exact h
  | cons op rest ih =>
    intro turtles h
    exact ih (applyOp turtles op) (applyOp_preserves_nodup turtles op h)

/-- A run of the `signal_handler` loop over records whose artifacts are all
still on disk finishes without an exception and removes exactly those
artifacts. -/
lemma signalHandlerLoop_fresh (records : List Nat) :
    ∀ unlinked : List Nat, records.Nodup → (∀ j ∈ records, j ∉ unlinked) →
      signalHandlerLoop unlinked records
        = ((records.map (fun i => [SigEff.term i, SigEff.hup i, SigEff.unlink i])).flatten,
           records.reverse ++ unlinked, none) := by
  induction records with
  | nil => intro unlinked _ _; rfl
  | cons i rest ih =>
    intro unlinked hnodup hfresh
    have hi : i ∉ unlinked := hfresh i (List.mem_cons_self i rest)
    have hrest : ∀ j ∈ rest, j ∉ i :: unlinked := by
      intro j hj
      simp only [List.mem_cons, not_or]
      exact ⟨fun hji => (List.nodup_cons.mp hnodup).1 (hji ▸ hj), hfresh j (List.mem_cons_of_mem i hj)⟩
    have hr := ih (i :: unlinked) (List.nodup_cons.mp hnodup).2 hrest
    simp only [signalHandlerLoop, hi, if_false, hr, List.map_cons, List.flatten_cons,
      List.reverse_cons, List.append_assoc, List.singleton_append, List.cons_append,
      List.nil_append]

/-- If every backend kill call succeeds, the shutdown loop reaches every
registered name. -/
lemma shutdownKillAttempts_all_success (beh : String → BackendOutcome) :
    ∀ turtles : List String, (∀ n ∈ turtles, beh n = BackendOutcome.success) →
      shutdownKillAttempts beh turtles = turtles := by
  intro turtles
  induction turtles with
  | nil => intro _; rfl
  | cons name rest ih =>
    intro hall
    have hname := hall name (List.mem_cons_self name rest)
    simp only [shutdownKillAttempts, hname]
    rw [ih (fun n hn => hall n (List.mem_cons_of_mem name hn))]

/-- The first failing backend kill call ends the shutdown loop: all names
after it are never attempted. -/
lemma shutdownKillAttempts_break (beh : String → BackendOutcome) :
    ∀ (pre : List String) (name : String) (post : List String),
      (∀ m ∈ pre, beh m = BackendOutcome.success) →
      beh name ≠ BackendOutcome.success →
      shutdownKillAttempts beh (pre ++ name :: post) = pre ++ [name] := by
  intro pre
  induction pre with
  | nil =>
    intro name post _ hfail
    cases hbeh : beh name with
    | success => exact absurd hbeh hfail
    | commFail => simp [shutdownKillAttempts, hbeh]
    | interrupt => simp [shutdownKillAttempts, hbeh]
  | cons m rest ih =>
    intro name post hpre hfail
    have hm := hpre m (List.mem_cons_self m rest)
    simp only [List.cons_append, shutdownKillAttempts, hm, List.append_eq]
    rw [ih name post (fun x hx => hpre x (List.mem_cons_of_mem m hx)) hfail]

/-- The port strings laid down by the launch-text loop are the literal
`"114"` followed by the successive counter values. -/
lemma launchEntries_ports (turtles : List String) :
    ∀ port, (launchEntries turtles port).map Prod.snd
      = (List.range turtles.length).map (fun i => "114" ++ Nat.repr (port + i)) := by
  induction turtles with
  | nil => intro port; rfl
  | cons name rest ih =>
    intro port
    simp only [launchEntries, List.map_cons, List.length_cons, List.range_succ_eq_map,
      List.map_map, ih (port + 1)]
    refine congrArg₂ List.cons (by rw [Nat.add_zero]) ?_
    apply List.map_congr_left
    intro i _
    simp only [Function.comp]
    have : port + 1 + i = port + (i + 1) := by omega
    rw [this]

/-- Distinct entries of one batch get distinct port strings. -/
lemma launchEntries_ports_nodup (turtles : List String) (port : Nat) :
    ((launchEntries turtles port).map Prod.snd).Nodup := by
  rw [launchEntries_ports turtles port]
  refine List.Nodup.map ?_ (List.nodup_range _)
  intro a b h
  have h1 : Nat.repr (port + a) = Nat.repr (port + b) := String_append_left_cancel h
  have := Nat_repr_injective h1
  omega

/-- On the canonical registry reached by resolving `n` collisions on `base`
(`base` itself plus suffixes `_0 .. _(n-1)`), the loop hands out suffix
`_n`. -/
lemma allocateName_collision_count (base : String) (n : Nat) :
    allocateName (base :: (List.range n).map (candidate base)) base
      = candidate base n := by
  set reg : List String := base :: (List.range n).map (candidate base) with hreg
  have hmem : base ∈ reg := List.mem_cons_self _ _
  obtain ⟨-, k, heq, hbelow, hfree⟩ := allocateName_spec_of_mem reg base hmem
  have hcand_mem : ∀ j, j < n → candidate base j ∈ reg := by
    intro j hj
    exact List.mem_cons_of_mem _ (List.mem_map_of_mem _ (List.mem_range.mpr hj))
  have hcand_free : candidate base n ∉ reg := by
    intro hin
    rcases List.mem_cons.mp hin with h | h
    · exact candidate_ne_base base n h
    · rcases List.mem_map.mp h with ⟨j, hj, hcj⟩
      have := candidate_injective base hcj.symm
      have hjn := List.mem_range.mp hj
      omega
  have hkn : k = n := by
    rcases Nat.lt_trichotomy k n with h | h | h
    · exact absurd (hcand_mem k h) hfree
    · exact h
    · exact absurd (hbelow n h) hcand_free
  rw [heq, hkn]

/-!
## Claim theorems
-/

/-- Claim C1: for every sequence of mediator Spawn requests and Herder
batch-spawn calls, with any requested base names and any backend
dispositions, the registry of live agent names never contains a duplicate at
any instant.  (On this code the batch-spawn contribution is vacuous: the
call raises before extending the registry; mediator Spawn appends only the
freshly allocated, provably unregistered name.) -/
theorem C1_registry_never_duplicated (ops : List Op) : (runOps ops).Nodup :=
  foldl_applyOp_nodup ops [] List.nodup_nil

/-- Claim C2: name allocation returns the base name unchanged when it is not
registered; otherwise it tries `base + "_" + counter` with the counter
starting at 0 and incrementing until a candidate is absent, so resolving the
(n+1)-st collision hands out suffix `_n` (the Nth collision receives
`_` + (N-1)); in particular two consecutive successful Spawn("kobuki")
requests with no intervening Destroy yield assigned names "kobuki" then
"kobuki_0". -/
theorem C2_allocation_algorithm (turtles : List String) (base : String) :
    (base ∉ turtles → allocateName turtles base = base)
    ∧ (base ∈ turtles →
        ∃ k, allocateName turtles base = candidate base k
          ∧ (∀ j, j < k → candidate base j ∈ turtles)
          ∧ candidate base k ∉ turtles)
    ∧ (∀ n, allocateName (base :: (List.range n).map (candidate base)) base
          = candidate base n)
    ∧ (spawn_turtle_service [] BackendOutcome.success "kobuki").responseName = "kobuki"
    ∧ (spawn_turtle_service
        (spawn_turtle_service [] BackendOutcome.success "kobuki").turtles
        BackendOutcome.success "kobuki").responseName = "kobuki_0" :=
  ⟨allocateName_of_not_mem turtles base,
   fun h => (allocateName_spec_of_mem turtles base h).2,
   allocateName_collision_count base,
   by decide, by decide⟩

theorem C2_allocation_algorithm_witness :
    allocateName [] "kobuki" = "kobuki"
    ∧ ∃ k, allocateName ["kobuki"] "kobuki" = candidate "kobuki" k
        ∧ (∀ j, j < k → candidate "kobuki" j ∈ ["kobuki"])
        ∧ candidate "kobuki" k ∉ ["kobuki"] :=
  ⟨(C2_allocation_algorithm [] "kobuki").1 (by decide),
   (C2_allocation_algorithm ["kobuki"] "kobuki").2.1 (by decide)⟩

/-- Claim C3: when the backend spawn call fails with a communication error,
the Spawn handler replies with the empty-string sentinel, does not add any
name to the registry, and does not submit any routing-rule announcement. -/
theorem C3_spawn_backend_failure (turtles : List String) (reqName : String) :
    (spawn_turtle_service turtles BackendOutcome.commFail reqName).responseName = ""
    ∧ (spawn_turtle_service turtles BackendOutcome.commFail reqName).turtles = turtles
    ∧ (spawn_turtle_service turtles BackendOutcome.commFail reqName).flips = [] :=
  ⟨rfl, rfl, rfl⟩

/-- Claim C4 counterexample: on the Destroy request "kobuki" against
registry ["kobuki"] with a communication-failing backend, no reply is sent,
no routing-rule cancellation is submitted, and the backend destroy call is
not even issued — contradicting the claim that the reply and the
cancellation still happen and that removal is attempted. -/
theorem C4_counterexample :
    (kill_turtle_service ["kobuki"] BackendOutcome.commFail "kobuki").replySent = false
    ∧ (kill_turtle_service ["kobuki"] BackendOutcome.commFail "kobuki").flips = []
    ∧ (kill_turtle_service ["kobuki"] BackendOutcome.commFail "kobuki").backendCalled = false
    ∧ (kill_turtle_service ["kobuki"] BackendOutcome.commFail "kobuki").turtles = ["kobuki"] := by
  decide

/-- Claim C4 (amended): every Destroy request, in particular one whose
backend call would fail with a communication error, raises an unbound-name
`NameError` before the backend destroy call is issued; the registry is left
unchanged (no removal is attempted), no reply is sent, and no routing-rule
cancellation is submitted. -/
theorem C4_kill_commfail_dies_early (turtles : List String) (reqName : String) :
    kill_turtle_service turtles BackendOutcome.commFail reqName
      = { turtles := turtles, backendCalled := false, replySent := false
          flips := [], error := some PyError.nameError } := rfl

/-- Claim C5 counterexample: Destroy of the never-spawned name "guimul"
against registry ["kobuki"] submits no routing-rule cancellation,
contradicting the claim that a cancellation is still submitted. -/
theorem C5_counterexample :
    "guimul" ∉ ["kobuki"]
    ∧ (kill_turtle_service ["kobuki"] BackendOutcome.success "guimul").flips = []
    ∧ (kill_turtle_service ["kobuki"] BackendOutcome.success "guimul").turtles = ["kobuki"] := by
  decide

/-- Claim C5 (amended): a Destroy request naming an agent that is not in the
registry leaves the registry unchanged and submits no routing-rule
cancellation: the handler fails with an unbound-name `NameError` before
reaching any of those steps. -/
theorem C5_kill_unregistered (turtles : List String) (backend : BackendOutcome)
    (reqName : String) (h : reqName ∉ turtles) :
    (kill_turtle_service turtles backend reqName).turtles = turtles
    ∧ (kill_turtle_service turtles backend reqName).flips = []
    ∧ (kill_turtle_service turtles backend reqName).error = some PyError.nameError :=
  ⟨rfl, rfl, rfl⟩

theorem C5_kill_unregistered_witness :
    (kill_turtle_service ["kobuki"] BackendOutcome.success "guimul").turtles = ["kobuki"]
    ∧ (kill_turtle_service ["kobuki"] BackendOutcome.success "guimul").flips = []
    ∧ (kill_turtle_service ["kobuki"] BackendOutcome.success "guimul").error
        = some PyError.nameError :=
  C5_kill_unregistered ["kobuki"] BackendOutcome.success "guimul" (by decide)

/-- Claim C6 counterexample: with registry ["a", "b"] and a backend whose
destroy call fails on "a", the shutdown loop attempts only "a": the failure
on "a" prevents the destroy attempt for the still-registered "b",
contradicting the claim. -/
theorem C6_counterexample :
    shutdownKillAttempts
        (fun n => if n = "a" then BackendOutcome.commFail else BackendOutcome.success)
        ["a", "b"] = ["a"]
    ∧ "b" ∉ shutdownKillAttempts
        (fun n => if n = "a" then BackendOutcome.commFail else BackendOutcome.success)
        ["a", "b"] := by
  decide

/-- Claim C6 (amended): during shutdown, a backend destroy call is attempted
for each registered name in order only until the first failure: when all
calls succeed every name is attempted, but a failing call executes `break`,
so the names after the first failure are never attempted. -/
theorem C6_shutdown_stops_at_first_failure (beh : String → BackendOutcome) :
    (∀ turtles, (∀ n ∈ turtles, beh n = BackendOutcome.success) →
        shutdownKillAttempts beh turtles = turtles)
    ∧ ∀ pre name post, (∀ m ∈ pre, beh m = BackendOutcome.success) →
        beh name ≠ BackendOutcome.success →
        shutdownKillAttempts beh (pre ++ name :: post) = pre ++ [name] :=
  ⟨shutdownKillAttempts_all_success beh, shutdownKillAttempts_break beh⟩

theorem C6_shutdown_stops_at_first_failure_witness :
    shutdownKillAttempts
        (fun n => if n = "b" then BackendOutcome.interrupt else BackendOutcome.success)
        (["a"] ++ "b" :: ["c"]) = ["a"] ++ ["b"] :=
  (C6_shutdown_stops_at_first_failure
      (fun n => if n = "b" then BackendOutcome.interrupt else BackendOutcome.success)).2
    ["a"] "b" ["c"] (by decide) (by decide)

/-- Claim C7 counterexample: with one process record (artifact 0, still on
disk), a first `signal_handler` run terminates the process and deletes the
artifact; a second run over the same (never cleared) record list re-signals
the already-terminated process and re-attempts `os.unlink` on the
already-deleted artifact, raising an uncaught OSError — contradicting the
claimed idempotence. -/
theorem C7_counterexample :
    signal_handler [0] [] = ([SigEff.term 0, SigEff.hup 0, SigEff.unlink 0], [0], none)
    ∧ signal_handler [0] [0]
        = ([SigEff.term 0, SigEff.hup 0, SigEff.unlink 0], [0], some PyError.osError) := by
  decide

/-- Claim C7 (amended): process teardown is not idempotent: after a first
run over fresh records completes without error, a second run over the same
record list re-signals the first process (terminate and SIGHUP again) and
re-attempts deletion of its already-deleted artifact, failing with an
uncaught OSError, because `_process_info` is never cleared. -/
theorem C7_terminateAll_not_idempotent (i : Nat) (rest unlinked : List Nat)
    (hnodup : (i :: rest).Nodup) (hfresh : ∀ j ∈ i :: rest, j ∉ unlinked) :
    (signal_handler (i :: rest) unlinked).2.2 = none
    ∧ signal_handler (i :: rest) (signal_handler (i :: rest) unlinked).2.1
        = ([SigEff.term i, SigEff.hup i, SigEff.unlink i],
           (signal_handler (i :: rest) unlinked).2.1, some PyError.osError) := by
  have h1 := signalHandlerLoop_fresh (i :: rest) unlinked hnodup hfresh
  have hmem : i ∈ (signal_handler (i :: rest) unlinked).2.1 := by
    rw [signal_handler, h1]
    simp
  constructor
  · rw [signal_handler, h1]
  · show signalHandlerLoop (signal_handler (i :: rest) unlinked).2.1 (i :: rest) = _
    simp only [signalHandlerLoop, if_pos hmem]

theorem C7_terminateAll_not_idempotent_witness :
    (signal_handler [0] []).2.2 = none
    ∧ signal_handler [0] (signal_handler [0] []).2.1
        = ([SigEff.term 0, SigEff.hup 0, SigEff.unlink 0],
           (signal_handler [0] []).2.1, some PyError.osError) :=
  C7_terminateAll_not_idempotent 0 [] [] (by decide) (by decide)

/-- Claim C8 counterexample: the batch ["kobuki", "guimul"] is given port
attribute strings "11411" and "11412" (the literal "114" followed by the
counter values 11 and 12), not 1141 and 1142 as claimed. -/
theorem C8_counterexample :
    (launchEntries ["kobuki", "guimul"] 11).map Prod.snd = ["11411", "11412"]
    ∧ (launchEntries ["kobuki", "guimul"] 11).map Prod.snd ≠ ["1141", "1142"] := by
  decide

/-- Claim C8 (amended): a batch-spawn of ["kobuki", "guimul"] generates a
launcher configuration whose two entries carry port strings "11411" and
"11412"; in general entry i of a batch receives the port string
`"114" + str(11 + i)` — the counter starts at the fixed value 11 and
increments per entry — so all port strings of a batch are distinct; the
rendered document is exactly the concatenation of the per-entry blocks
inside the `<concert>` wrapper. -/
theorem C8_launch_ports (turtles : List String) :
    launchEntries ["kobuki", "guimul"] 11 = [("kobuki", "11411"), ("guimul", "11412")]
    ∧ (launchEntries turtles 11).map Prod.snd
        = (List.range turtles.length).map (fun i => "114" ++ Nat.repr (11 + i))
    ∧ ((launchEntries turtles 11).map Prod.snd).Nodup
    ∧ prepare_rocon_launch_text turtles
        = "<concert>\n" ++ String.join ((launchEntries turtles 11).map renderLaunchEntry)
            ++ "</concert>\n" :=
  ⟨by decide, launchEntries_ports turtles 11, launchEntries_ports_nodup turtles 11,
   by rw [prepare_rocon_launch_text, prepareLoop_eq_render]⟩

/-- Claim C9: every invocation of the Destroy handler fails with an
unbound-name error (`msg.name` is read while the parameter is named `req`)
before the backend destroy call is issued; consequently no Destroy request
ever removes a name from the registry, sends a reply, or submits a
cancellation. -/
theorem C9_kill_handler_name_error (turtles : List String)
    (backend : BackendOutcome) (reqName : String) :
    (kill_turtle_service turtles backend reqName).error = some PyError.nameError
    ∧ (kill_turtle_service turtles backend reqName).backendCalled = false
    ∧ (kill_turtle_service turtles backend reqName).turtles = turtles
    ∧ (kill_turtle_service turtles backend reqName).replySent = false
    ∧ (kill_turtle_service turtles backend reqName).flips = [] :=
  ⟨rfl, rfl, rfl, rfl, rfl⟩

/-- Claim C10: every invocation of batch spawn fails with an
attribute-lookup error (it calls the non-existent method
`self._prepare_rocon_launch_text`) before launching any process or
registering any name, and the temporary artifact file created just before
the failure is left behind. -/
theorem C10_batch_spawn_attribute_error (turtles batch : List String) :
    (spawn_turtles turtles batch).error = some PyError.attributeError
    ∧ (spawn_turtles turtles batch).processLaunched = false
    ∧ (spawn_turtles turtles batch).turtles = turtles
    ∧ (spawn_turtles turtles batch).tempCreated = true
    ∧ (spawn_turtles turtles batch).tempDeleted = false :=
  ⟨rfl, rfl, rfl, rfl, rfl⟩

end TurtleHerderProof
